import Mathlib

/-!
# Shallow embedding of qaspen-psycopg's engine module

This file embeds `src/qaspen_psycopg/engine.py` (classes `PsycopgTransaction`
and `PsycopgEngine`, helper `_retrieve_cursor`) as explicit state-passing Lean
functions, and proves properties of the transaction lifecycle, the execution
routing, and the pool lifecycle.

Modelling conventions:
* All effects on the external driver/pool layer (psycopg / psycopg_pool) are
  recorded in an append-only log of `DBOp` events carried by the `World`.
* The external layer is assumed well-behaved: pool `getconn`/`putconn`,
  `connection.commit`/`rollback`, pool `open`/`close` always succeed; only
  `cursor.execute` can raise, governed by an environment `Env` that says which
  query strings fail (modelling driver-side query errors).  `Env` also supplies
  the rows `fetchall` returns for a query.
* A `World` holds the engine state, one transaction object under study
  (claims are per-transaction), fresh-id counters, and the event log.
  The context variable `running_transaction` is modelled as an `Option Nat`
  holding the id of the registered transaction; the token returned by
  `ContextVar.set` is the previous value, saved in the transaction's
  `context` attribute, exactly as in the source.
* Python `x or default` on optional values is embedded faithfully: falsy
  values (`None`, `False`, `0`) select the default.
* Python float timeouts are modelled as rationals (only which value is passed
  through matters; no float arithmetic occurs in the source).
* `World.pools_created` is ghost instrumentation counting constructor calls of
  `AsyncConnectionPool`, used to state that no fresh pool is ever constructed.
-/

namespace QaspenPsycopg

/-- Python float timeout values (only identity/zero-test matter here). -/
abbrev Timeout := Rat

/-- A fetched row: `dict_row` maps column names to values (values abstracted
as strings; their content is external driver data). -/
abbrev Row := List (String × String)

/-- Observable operations performed on the external psycopg / psycopg_pool
layer, plus emitted warnings. -/
inductive DBOp where
  | getconn (conn : Nat)
  | putconn (conn : Option Nat)
  | connect (conn : Nat)
  | curExecute (conn : Nat) (query : String)
  | fetchall (conn : Nat) (query : String)
  | connCommit (conn : Nat)
  | connRollback (conn : Nat)
  | poolOpen (pool : Nat) (wait : Bool) (timeout : Timeout)
  | poolClose (pool : Nat) (timeout : Timeout)
  | warn (message : String)
  deriving DecidableEq

/-- Python exceptions that the embedded code can raise. -/
inductive PyErr where
  | queryError (query : String)
  | attributeError
  | userError
  deriving DecidableEq

/-- Behaviour of the external driver: which query strings raise on
`cursor.execute`, and what rows `fetchall` yields for a query. -/
structure Env where
  queryFails : String → Bool
  fetchedRows : String → List Row

/-- A driver cursor: bound to a connection; remembers the last executed
query (what `fetchall` will fetch rows for). -/
structure Cursor where
  conn : Nat
  lastQuery : Option String := none
  deriving DecidableEq

/-- An `AsyncConnectionPool` object: identity, constructor arguments, and
whether `close()` has been called on it. -/
structure Pool where
  poolId : Nat
  conninfo : String
  params : List (String × String)
  closed : Bool
  deriving DecidableEq

/-- Attributes of a `PsycopgTransaction` set in `__init__` / `__aenter__`:
`_connection`, `_transaction` (the cursor), the two flags, and the
`ContextVar` token `self.context` (the previous registered value). -/
structure TxState where
  connection : Option Nat := none
  cursor : Option Cursor := none
  is_rollback_executed : Bool := false
  is_commit_executed : Bool := false
  context : Option (Option Nat) := none
  deriving DecidableEq

/-- Attributes of a `PsycopgEngine` set in `__init__`:
`connection_url`, the three pool settings, `connection_pool_params`
(`None` collapsed to the empty map as by `or {}`), the
`running_transaction` context variable (default `None`), and the private
`_connection_pool` handle (initially `None`). -/
structure EngineState where
  connection_url : String
  open_connection_pool_wait : Option Bool := none
  open_connection_pool_timeout : Option Timeout := none
  close_connection_pool_timeout : Option Timeout := none
  connection_pool_params : List (String × String) := []
  running_transaction : Option Nat := none
  _connection_pool : Option Pool := none
  deriving DecidableEq

/-- The whole mutable state: engine, the one transaction under study (with
its identity `txId`), fresh-id counters for connections and pools, the ghost
count of pool constructions, and the event log. -/
structure World where
  engine : EngineState
  tx : TxState := {}
  txId : Nat := 0
  nextConnId : Nat := 1
  nextPoolId : Nat := 1
  pools_created : Nat := 0
  log : List DBOp := []
  deriving DecidableEq

/-- `PsycopgEngine.__init__`: stores the settings; `connection_pool_params or
\x7b\x7d` collapses `None` to the empty map. -/
def PsycopgEngine.mkEngine (connection_url : String)
    (open_connection_pool_wait : Option Bool)
    (open_connection_pool_timeout : Option Timeout)
    (close_connection_pool_timeout : Option Timeout)
    (connection_pool_params : Option (List (String × String))) : EngineState :=
  { connection_url := connection_url
    open_connection_pool_wait := open_connection_pool_wait
    open_connection_pool_timeout := open_connection_pool_timeout
    close_connection_pool_timeout := close_connection_pool_timeout
    connection_pool_params := connection_pool_params.getD []
    running_transaction := none
    _connection_pool := none }

/-- A fresh `World` around a just-constructed engine. -/
def mkWorld (e : EngineState) : World := { engine := e }

/-- Python `x or d` for an optional bool: `None` and `False` are falsy and
select `d`. -/
def pyOr (x : Option Bool) (d : Bool) : Bool :=
  match x with
  | some b => if b then b else d
  | none => d

/-- Python `x or d` for an optional float: `None` and `0.0` are falsy and
select `d`. -/
def pyOrT (x : Option Timeout) (d : Timeout) : Timeout :=
  match x with
  | some v => if v = 0 then d else v
  | none => d

/-! ## External driver / pool primitives -/

/-- `pool.getconn()`: hands out a fresh connection. -/
def Pool.getconn (w : World) : Nat × World :=
  (w.nextConnId,
    { w with nextConnId := w.nextConnId + 1, log := w.log ++ [.getconn w.nextConnId] })

/-- `pool.putconn(conn)`: returns a connection to the pool (the argument is
whatever the caller holds, possibly `None`). -/
def Pool.putconn (conn : Option Nat) (w : World) : World :=
  { w with log := w.log ++ [.putconn conn] }

/-- `AsyncConnection.connect(conninfo=...)`: a fresh standalone connection. -/
def AsyncConnection.connect (w : World) : Nat × World :=
  (w.nextConnId,
    { w with nextConnId := w.nextConnId + 1, log := w.log ++ [.connect w.nextConnId] })

/-- `connection.commit()`. -/
def AsyncConnection.commit (conn : Nat) (w : World) : World :=
  { w with log := w.log ++ [.connCommit conn] }

/-- `connection.rollback()`. -/
def AsyncConnection.rollback (conn : Nat) (w : World) : World :=
  { w with log := w.log ++ [.connRollback conn] }

/-- `cursor.execute(query)`: raises the driver's query error when the
environment says the query fails; otherwise returns the (result) cursor,
now bound to this query. -/
def AsyncCursor.execute (env : Env) (c : Cursor) (query : String) (w : World) :
    Except PyErr Cursor × World :=
  let w1 := { w with log := w.log ++ [.curExecute c.conn query] }
  if env.queryFails query then (.error (.queryError query), w1)
  else (.ok { c with lastQuery := some query }, w1)

/-- `cursor.fetchall()`: rows for the last executed query, per the
environment. -/
def AsyncCursor.fetchall (env : Env) (c : Cursor) (w : World) : List Row × World :=
  let q := c.lastQuery.getD ""
  (env.fetchedRows q, { w with log := w.log ++ [.fetchall c.conn q] })

/-- `_retrieve_cursor(connection)`: `connection.cursor(row_factory=dict_row)`. -/
def _retrieve_cursor (connection : Nat) : Cursor :=
  { conn := connection }

/-! ## PsycopgEngine -/

/-- `PsycopgEngine.create_connection_pool`: returns the existing pool when
one is stored; otherwise constructs an `AsyncConnectionPool` from the
connection URL and the pass-through params, opens it with
`wait=self.open_connection_pool_wait or True` and
`timeout=self.open_connection_pool_timeout or 30`, stores and returns it. -/
def PsycopgEngine.create_connection_pool (w : World) : Pool × World :=
  match w.engine._connection_pool with
  | some pool => (pool, w)
  | none =>
    let pool : Pool :=
      { poolId := w.nextPoolId
        conninfo := w.engine.connection_url
        params := w.engine.connection_pool_params
        closed := false }
    let wait := pyOr w.engine.open_connection_pool_wait true
    let timeout := pyOrT w.engine.open_connection_pool_timeout 30
    (pool,
      { w with
        engine := { w.engine with _connection_pool := some pool }
        nextPoolId := w.nextPoolId + 1
        pools_created := w.pools_created + 1
        log := w.log ++ [.poolOpen pool.poolId wait timeout] })

/-- The `connection_pool` property: create on first access, else return the
stored pool. -/
def PsycopgEngine.connection_pool (w : World) : Pool × World :=
  match w.engine._connection_pool with
  | none => PsycopgEngine.create_connection_pool w
  | some pool => (pool, w)

/-- `PsycopgEngine.stop_connection_pool`: warns and returns when no pool was
ever created; else closes the stored pool with
`timeout=self.close_connection_pool_timeout or 30`.  The handle is not
cleared. -/
def PsycopgEngine.stop_connection_pool (w : World) : World :=
  match w.engine._connection_pool with
  | none =>
    { w with log := w.log ++ [.warn "Try to close not existing connection pool."] }
  | some pool =>
    let timeout := pyOrT w.engine.close_connection_pool_timeout 30
    { w with
      engine := { w.engine with _connection_pool := some { pool with closed := true } }
      log := w.log ++ [.poolClose pool.poolId timeout] }

/-- `PsycopgEngine.connection`: a brand-new non-pooled connection. -/
def PsycopgEngine.connection (w : World) : Nat × World :=
  AsyncConnection.connect w

/-- `PsycopgEngine.transaction`: a new inert `PsycopgTransaction` bound to
this engine (fresh attributes as set by `PsycopgTransaction.__init__`). -/
def PsycopgEngine.transaction (w : World) : World :=
  { w with tx := {} }

/-! ## PsycopgTransaction -/

/-- `PsycopgTransaction.retrieve_connection`: get the engine's pool (creating
it on first access) and `getconn` from it. -/
def PsycopgTransaction.retrieve_connection (w : World) : Nat × World :=
  let (_connection_pool, w1) := PsycopgEngine.connection_pool w
  Pool.getconn w1

/-- `PsycopgTransaction.__aenter__`: acquire a connection, open a cursor on
it, then `self.context = engine.running_transaction.set(self)` — the token
saves the previous registered value and the transaction becomes the
registered one. -/
def PsycopgTransaction.aenter (w : World) : World :=
  let (conn, w1) := PsycopgTransaction.retrieve_connection w
  let w2 :=
    { w1 with
      tx :=
        { w1.tx with
          connection := some conn
          cursor := some (_retrieve_cursor conn) } }
  { w2 with
    tx := { w2.tx with context := some w2.engine.running_transaction }
    engine := { w2.engine with running_transaction := some w2.txId } }

/-- `PsycopgTransaction.rollback`: `await self._connection.rollback()` (an
`AttributeError` when `_connection` is `None`), then set
`_is_rollback_executed` — unconditionally, with no idempotence guard. -/
def PsycopgTransaction.rollback (w : World) : Except PyErr Unit × World :=
  match w.tx.connection with
  | none => (.error .attributeError, w)
  | some c =>
    let w1 := AsyncConnection.rollback c w
    (.ok (), { w1 with tx := { w1.tx with is_rollback_executed := true } })

/-- `PsycopgTransaction.commit`: `await self._connection.commit()` (an
`AttributeError` when `_connection` is `None`), then set
`_is_commit_executed` — unconditionally, with no idempotence guard. -/
def PsycopgTransaction.commit (w : World) : Except PyErr Unit × World :=
  match w.tx.connection with
  | none => (.error .attributeError, w)
  | some c =>
    let w1 := AsyncConnection.commit c w
    (.ok (), { w1 with tx := { w1.tx with is_commit_executed := true } })

/-- `PsycopgTransaction.begin`: a no-op placeholder. -/
def PsycopgTransaction.begin (w : World) : World := w

/-- `PsycopgTransaction.execute`: lazily acquire connection and cursor when
`_connection` is unset, run the query on the held cursor, fetch rows when
`fetch_results`, return them (else `None`). -/
def PsycopgTransaction.execute (env : Env) (querystring : String)
    (fetch_results : Bool) (w : World) : Except PyErr (Option (List Row)) × World :=
  let w1 :=
    if w.tx.connection.isNone then
      let (conn, wA) := PsycopgTransaction.retrieve_connection w
      { wA with
        tx :=
          { wA.tx with
            connection := some conn
            cursor := some (_retrieve_cursor conn) } }
    else w
  match w1.tx.cursor with
  | none => (.error .attributeError, w1)
  | some cur =>
    match AsyncCursor.execute env cur querystring w1 with
    | (.error e, w2) => (.error e, w2)
    | (.ok result_cursor, w2) =>
      if fetch_results then
        let (rows, w3) := AsyncCursor.fetchall env result_cursor w2
        (.ok (some rows), w3)
      else (.ok none, w2)

/-- `PsycopgTransaction.__aexit__`: rollback when a failure propagates and no
rollback ran yet; else commit when the exit is clean and neither flag is set;
then — in the source with no surrounding try/finally — fetch the pool, return
`self._connection` to it, and `running_transaction.reset(self.context)`
(restoring the pre-entry registration; an `AttributeError` when the token was
never set, i.e. the scope was never entered). -/
def PsycopgTransaction.aexit (exception : Bool) (w : World) : Except PyErr Unit × World :=
  let rollback_condition := exception && !w.tx.is_rollback_executed
  let commit_condition :=
    !exception && !w.tx.is_commit_executed && !w.tx.is_rollback_executed
  let step1 : Except PyErr Unit × World :=
    if rollback_condition then PsycopgTransaction.rollback w
    else if commit_condition then PsycopgTransaction.commit w
    else (.ok (), w)
  match step1 with
  | (.error e, w1) => (.error e, w1)
  | (.ok _, w1) =>
    let (_conn_pool, w2) := PsycopgEngine.connection_pool w1
    let w3 := Pool.putconn w2.tx.connection w2
    match w3.tx.context with
    | none => (.error .attributeError, w3)
    | some prev =>
      (.ok (), { w3 with engine := { w3.engine with running_transaction := prev } })

/-- `PsycopgEngine.execute`: when a transaction is registered in the calling
context, delegate to it (`in_pool` ignored); else, when `in_pool`, borrow a
pooled connection, execute, optionally fetch, commit, and return the
connection (the return runs only on the success path — there is no
try/finally); else run on a fresh standalone connection (never closed). -/
def PsycopgEngine.execute (env : Env) (querystring : String) (in_pool : Bool)
    (fetch_results : Bool) (w : World) : Except PyErr (Option (List Row)) × World :=
  match w.engine.running_transaction with
  | some _running_transaction =>
    PsycopgTransaction.execute env querystring fetch_results w
  | none =>
    if in_pool then
      let (_conn_pool, w1) := PsycopgEngine.connection_pool w
      let (connection, w2) := Pool.getconn w1
      let cursor := _retrieve_cursor connection
      match AsyncCursor.execute env cursor querystring w2 with
      | (.error e, w3) => (.error e, w3)
      | (.ok cursor2, w3) =>
        let (results, w4) :=
          if fetch_results then
            let (rows, wf) := AsyncCursor.fetchall env cursor2 w3
            ((some rows : Option (List Row)), wf)
          else (none, w3)
        let w5 := AsyncConnection.commit connection w4
        let w6 := Pool.putconn (some connection) w5
        (.ok results, w6)
    else
      let (connection, w1) := PsycopgEngine.connection w
      let cursor := _retrieve_cursor connection
      match AsyncCursor.execute env cursor querystring w1 with
      | (.error e, w2) => (.error e, w2)
      | (.ok cursor2, w2) =>
        let (results, w3) :=
          if fetch_results then
            let (rows, wf) := AsyncCursor.fetchall env cursor2 w2
            ((some rows : Option (List Row)), wf)
          else (none, w2)
        let w4 := AsyncConnection.commit connection w3
        (.ok results, w4)

/-! ## Scoped use of a transaction (the `async with` protocol) -/

/-- Operations a caller can perform inside a transaction scope: run a query
through the transaction, explicitly commit or rollback, or raise an
exception of its own. -/
inductive BodyOp where
  | executeOp (query : String) (fetch_results : Bool)
  | commitOp
  | rollbackOp
  | raiseOp
  deriving DecidableEq

/-- One body operation. -/
def runBodyOp (env : Env) (op : BodyOp) (w : World) : Except PyErr Unit × World :=
  match op with
  | .executeOp q f =>
    match PsycopgTransaction.execute env q f w with
    | (.ok _, w1) => (.ok (), w1)
    | (.error e, w1) => (.error e, w1)
  | .commitOp => PsycopgTransaction.commit w
  | .rollbackOp => PsycopgTransaction.rollback w
  | .raiseOp => (.error .userError, w)

/-- A scope body: operations run in order, stopping at the first raised
exception (which then propagates to the scope exit). -/
def runBody (env : Env) (body : List BodyOp) (w : World) : Except PyErr Unit × World :=
  match body with
  | [] => (.ok (), w)
  | op :: rest =>
    match runBodyOp env op w with
    | (.ok _, w1) => runBody env rest w1
    | (.error e, w1) => (.error e, w1)

/-- `async with engine.transaction(): body` — create the inert transaction,
enter, run the body, and exit with the exception flag reflecting whether the
body raised; a body exception propagates after `__aexit__` (which returns
`None`, so it never swallows it), unless `__aexit__` itself raises. -/
def transactionScope (env : Env) (body : List BodyOp) (w : World) :
    Except PyErr Unit × World :=
  let w0 := PsycopgEngine.transaction w
  let w1 := PsycopgTransaction.aenter w0
  match runBody env body w1 with
  | (.ok _, w2) => PsycopgTransaction.aexit false w2
  | (.error e, w2) =>
    match PsycopgTransaction.aexit true w2 with
    | (.ok _, w3) => (.error e, w3)
    | (.error e2, w3) => (.error e2, w3)

/-! ## Log classifiers -/

/-- Is this op a pool `putconn`? -/
def DBOp.isPutconn : DBOp → Bool
  | .putconn _ => true
  | _ => false

/-- Is this op a pool `getconn`? -/
def DBOp.isGetconn : DBOp → Bool
  | .getconn _ => true
  | _ => false

/-- Is this op a `connection.commit()`? -/
def DBOp.isConnCommit : DBOp → Bool
  | .connCommit _ => true
  | _ => false

/-- Is this op a `connection.rollback()`? -/
def DBOp.isConnRollback : DBOp → Bool
  | .connRollback _ => true
  | _ => false

/-- Is this op a `fetchall`? -/
def DBOp.isFetchall : DBOp → Bool
  | .fetchall _ _ => true
  | _ => false

/-- Is this op an emitted warning? -/
def DBOp.isWarn : DBOp → Bool
  | .warn _ => true
  | _ => false

/-! ## Concrete fixtures -/

/-- An environment in which no query fails and every query returns no rows. -/
def env0 : Env :=
  { queryFails := fun _ => false, fetchedRows := fun _ => [] }

/-- An environment in which exactly the query string "BOOM" raises. -/
def envBoom : Env :=
  { queryFails := fun q => q == "BOOM", fetchedRows := fun _ => [] }

/-- A plainly configured engine (all optional settings unset). -/
def e0 : EngineState :=
  PsycopgEngine.mkEngine "postgresql://localhost/db" none none none none

/-- A fresh world around `e0`. -/
def w0 : World := mkWorld e0

/-- `w0` after creating a transaction and entering its scope. -/
def wEntered : World :=
  PsycopgTransaction.aenter (PsycopgEngine.transaction w0)

/-- An engine configured with the pool-open wait flag explicitly set to
false. -/
def engineWaitFalse : EngineState :=
  PsycopgEngine.mkEngine "postgresql://localhost/db" (some false) none none none

/-- An engine configured with a zero pool-close timeout. -/
def engineCloseZero : EngineState :=
  PsycopgEngine.mkEngine "postgresql://localhost/db" none none (some 0) none

/-- `engineCloseZero`'s world after its pool was created. -/
def wCloseZero : World :=
  (PsycopgEngine.create_connection_pool (mkWorld engineCloseZero)).2

/-- The pool object `w0` gets when its engine first creates one. -/
def pool0 : Pool :=
  { poolId := 1, conninfo := "postgresql://localhost/db", params := [], closed := false }

/-- `w0` after its pool was created. -/
def wPool : World := (PsycopgEngine.create_connection_pool w0).2

/-! ## General lemmas about the embedded operations -/

/-- `Transaction.execute` only ever emits `getconn`, `poolOpen`, `curExecute`
and `fetchall` events: any count of events outside those classes is
unchanged. -/
theorem tx_execute_countP (env : Env) (q : String) (f : Bool) (w : World) (p : DBOp → Bool)
    (hget : ∀ n, p (DBOp.getconn n) = false)
    (hpool : ∀ a b c, p (DBOp.poolOpen a b c) = false)
    (hcur : ∀ n s, p (DBOp.curExecute n s) = false)
    (hfet : ∀ n s, p (DBOp.fetchall n s) = false) :
    (PsycopgTransaction.execute env q f w).2.log.countP p = w.log.countP p := by
  cases hconn : w.tx.connection <;> cases hq : env.queryFails q <;> cases f <;>
    cases hp2 : w.engine._connection_pool <;>
    simp [PsycopgTransaction.execute, PsycopgTransaction.retrieve_connection,
      PsycopgEngine.connection_pool, PsycopgEngine.create_connection_pool,
      Pool.getconn, AsyncCursor.execute, AsyncCursor.fetchall, _retrieve_cursor,
      hconn, hq, hp2, List.countP_append, List.countP_cons, hget, hpool, hcur, hfet] <;>
    split <;>
    simp [List.countP_append, List.countP_cons, hget, hpool, hcur, hfet]

/-- `Transaction.execute` on a transaction that already holds a connection
emits only `curExecute` and `fetchall` events. -/
theorem tx_execute_connected_countP (env : Env) (q : String) (f : Bool) (w : World)
    (p : DBOp → Bool) (hconn : w.tx.connection.isSome = true)
    (hcur : ∀ n s, p (DBOp.curExecute n s) = false)
    (hfet : ∀ n s, p (DBOp.fetchall n s) = false) :
    (PsycopgTransaction.execute env q f w).2.log.countP p = w.log.countP p := by
  obtain ⟨c, hc⟩ := Option.isSome_iff_exists.mp hconn
  cases hq : env.queryFails q <;> cases f <;>
    simp [PsycopgTransaction.execute, AsyncCursor.execute, AsyncCursor.fetchall,
      hc, hq, List.countP_append, List.countP_cons, hcur, hfet] <;>
    split <;>
    simp [List.countP_append, List.countP_cons, hcur, hfet]

/-- `Transaction.execute` never touches the context registration, the saved
token, or the two flags. -/
theorem tx_execute_fields (env : Env) (q : String) (f : Bool) (w : World) :
    (PsycopgTransaction.execute env q f w).2.engine.running_transaction =
      w.engine.running_transaction ∧
    (PsycopgTransaction.execute env q f w).2.tx.context = w.tx.context ∧
    (PsycopgTransaction.execute env q f w).2.tx.is_commit_executed =
      w.tx.is_commit_executed ∧
    (PsycopgTransaction.execute env q f w).2.tx.is_rollback_executed =
      w.tx.is_rollback_executed := by
  cases hconn : w.tx.connection <;> cases hq : env.queryFails q <;> cases f <;>
    cases hp2 : w.engine._connection_pool <;>
    simp [PsycopgTransaction.execute, PsycopgTransaction.retrieve_connection,
      PsycopgEngine.connection_pool, PsycopgEngine.create_connection_pool,
      Pool.getconn, AsyncCursor.execute, AsyncCursor.fetchall, _retrieve_cursor,
      hconn, hq, hp2] <;>
    split <;> simp

/-- `Transaction.execute` keeps the held connection when one is held. -/
theorem tx_execute_connection (env : Env) (q : String) (f : Bool) (w : World)
    (hconn : w.tx.connection.isSome = true) :
    (PsycopgTransaction.execute env q f w).2.tx.connection = w.tx.connection := by
  obtain ⟨c, hc⟩ := Option.isSome_iff_exists.mp hconn
  cases hq : env.queryFails q <;> cases f <;>
    simp [PsycopgTransaction.execute, AsyncCursor.execute, AsyncCursor.fetchall, hc, hq] <;>
    split <;> simp [hc]

/-- `Transaction.commit` on a connected transaction: one equation capturing
the full effect — an unconditional `connection.commit()` plus the flag. -/
theorem tx_commit_eq (w : World) (c : Nat) (hc : w.tx.connection = some c) :
    PsycopgTransaction.commit w =
      (.ok (), { w with log := w.log ++ [DBOp.connCommit c],
                        tx := { w.tx with is_commit_executed := true } }) := by
  simp [PsycopgTransaction.commit, AsyncConnection.commit, hc]

/-- `Transaction.rollback` on a connected transaction: one equation capturing
the full effect — an unconditional `connection.rollback()` plus the flag. -/
theorem tx_rollback_eq (w : World) (c : Nat) (hc : w.tx.connection = some c) :
    PsycopgTransaction.rollback w =
      (.ok (), { w with log := w.log ++ [DBOp.connRollback c],
                        tx := { w.tx with is_rollback_executed := true } }) := by
  simp [PsycopgTransaction.rollback, AsyncConnection.rollback, hc]

/-- A scope body only ever emits `getconn`, `poolOpen`, `curExecute`,
`fetchall`, `connCommit` and `connRollback` events; in particular it never
returns a connection to the pool. -/
theorem runBody_countP (env : Env) (body : List BodyOp) (p : DBOp → Bool)
    (hget : ∀ n, p (DBOp.getconn n) = false)
    (hpool : ∀ a b c, p (DBOp.poolOpen a b c) = false)
    (hcur : ∀ n s, p (DBOp.curExecute n s) = false)
    (hfet : ∀ n s, p (DBOp.fetchall n s) = false)
    (hcom : ∀ n, p (DBOp.connCommit n) = false)
    (hrol : ∀ n, p (DBOp.connRollback n) = false) :
    ∀ w : World, (runBody env body w).2.log.countP p = w.log.countP p := by
  induction body with
  | nil => intro w; simp [runBody]
  | cons op rest ih =>
    intro w
    match op with
    | .executeOp q f =>
      have hcnt := tx_execute_countP env q f w p hget hpool hcur hfet
      rcases hx : PsycopgTransaction.execute env q f w with ⟨r, w1⟩
      rw [hx] at hcnt
      cases r with
      | ok v => simp only [runBody, runBodyOp, hx]; rw [ih w1]; exact hcnt
      | error e => simp only [runBody, runBodyOp, hx]; exact hcnt
    | .commitOp =>
      cases hconn : w.tx.connection with
      | none => simp [runBody, runBodyOp, PsycopgTransaction.commit, hconn]
      | some c =>
        rw [runBody, runBodyOp, tx_commit_eq w c hconn]
        simp [ih, List.countP_append, List.countP_cons, hcom]
    | .rollbackOp =>
      cases hconn : w.tx.connection with
      | none => simp [runBody, runBodyOp, PsycopgTransaction.rollback, hconn]
      | some c =>
        rw [runBody, runBodyOp, tx_rollback_eq w c hconn]
        simp [ih, List.countP_append, List.countP_cons, hrol]
    | .raiseOp => simp [runBody, runBodyOp]

/-- A scope body never touches the context registration, the saved token, or
the held connection (when one is held). -/
theorem runBody_fields (env : Env) : ∀ (body : List BodyOp) (w : World),
    w.tx.connection.isSome = true →
    ((runBody env body w).2.engine.running_transaction = w.engine.running_transaction ∧
     (runBody env body w).2.tx.context = w.tx.context ∧
     (runBody env body w).2.tx.connection = w.tx.connection) := by
  intro body
  induction body with
  | nil => intro w _; simp [runBody]
  | cons op rest ih =>
    intro w hconn
    match op with
    | .executeOp q f =>
      rcases hx : PsycopgTransaction.execute env q f w with ⟨r, w1⟩
      have hf := tx_execute_fields env q f w
      have hcn := tx_execute_connection env q f w hconn
      rw [hx] at hf hcn
      cases r with
      | ok v =>
        simp only [runBody, runBodyOp, hx]
        have hconn1 : w1.tx.connection.isSome = true := by rw [hcn]; exact hconn
        have h1 := ih w1 hconn1
        exact ⟨h1.1.trans hf.1, h1.2.1.trans hf.2.1, h1.2.2.trans hcn⟩
      | error e =>
        simp only [runBody, runBodyOp, hx]
        exact ⟨hf.1, hf.2.1, hcn⟩
    | .commitOp =>
      obtain ⟨c, hc⟩ := Option.isSome_iff_exists.mp hconn
      simp only [runBody, runBodyOp, tx_commit_eq w c hc]
      have h1 := ih { w with log := w.log ++ [DBOp.connCommit c],
                             tx := { w.tx with is_commit_executed := true } }
        (by simp [hc])
      exact ⟨h1.1, h1.2.1, h1.2.2⟩
    | .rollbackOp =>
      obtain ⟨c, hc⟩ := Option.isSome_iff_exists.mp hconn
      simp only [runBody, runBodyOp, tx_rollback_eq w c hc]
      have h1 := ih { w with log := w.log ++ [DBOp.connRollback c],
                             tx := { w.tx with is_rollback_executed := true } }
        (by simp [hc])
      exact ⟨h1.1, h1.2.1, h1.2.2⟩
    | .raiseOp => simp [runBody, runBodyOp]

/-- A scope body that contains no explicit `commit`/`rollback` call leaves
both flags unchanged and issues no `connection.commit()`/`rollback()`. -/
theorem runBody_flags (env : Env) : ∀ (body : List BodyOp),
    (∀ op ∈ body, op ≠ BodyOp.commitOp ∧ op ≠ BodyOp.rollbackOp) →
    ∀ w : World,
      ((runBody env body w).2.tx.is_commit_executed = w.tx.is_commit_executed ∧
       (runBody env body w).2.tx.is_rollback_executed = w.tx.is_rollback_executed ∧
       (runBody env body w).2.log.countP DBOp.isConnCommit =
         w.log.countP DBOp.isConnCommit ∧
       (runBody env body w).2.log.countP DBOp.isConnRollback =
         w.log.countP DBOp.isConnRollback) := by
  intro body
  induction body with
  | nil => intro _ w; simp [runBody]
  | cons op rest ih =>
    intro hbody w
    have hop := hbody op (List.mem_cons_self op rest)
    have hrest : ∀ op2 ∈ rest, op2 ≠ BodyOp.commitOp ∧ op2 ≠ BodyOp.rollbackOp :=
      fun op2 h2 => hbody op2 (List.mem_cons_of_mem op h2)
    match op with
    | .executeOp q f =>
      rcases hx : PsycopgTransaction.execute env q f w with ⟨r, w1⟩
      have hf := tx_execute_fields env q f w
      have hcc := tx_execute_countP env q f w DBOp.isConnCommit
        (fun n => rfl) (fun a b c => rfl) (fun n s => rfl) (fun n s => rfl)
      have hcr := tx_execute_countP env q f w DBOp.isConnRollback
        (fun n => rfl) (fun a b c => rfl) (fun n s => rfl) (fun n s => rfl)
      rw [hx] at hf hcc hcr
      cases r with
      | ok v =>
        simp only [runBody, runBodyOp, hx]
        have h1 := ih hrest w1
        exact ⟨h1.1.trans hf.2.2.1, h1.2.1.trans hf.2.2.2,
          h1.2.2.1.trans hcc, h1.2.2.2.trans hcr⟩
      | error e =>
        simp only [runBody, runBodyOp, hx]
        exact ⟨hf.2.2.1, hf.2.2.2, hcc, hcr⟩
    | .commitOp => exact absurd rfl hop.1
    | .rollbackOp => exact absurd rfl hop.2
    | .raiseOp => simp [runBody, runBodyOp]

/-- Effect of `__aenter__`: the connection and cursor are installed, the
token saves the pre-entry registration, the transaction becomes registered,
the flags are untouched. -/
theorem aenter_fields (w : World) :
    (PsycopgTransaction.aenter w).tx.connection = some w.nextConnId ∧
    (PsycopgTransaction.aenter w).tx.cursor =
      some { conn := w.nextConnId, lastQuery := none } ∧
    (PsycopgTransaction.aenter w).tx.context = some w.engine.running_transaction ∧
    (PsycopgTransaction.aenter w).tx.is_commit_executed = w.tx.is_commit_executed ∧
    (PsycopgTransaction.aenter w).tx.is_rollback_executed = w.tx.is_rollback_executed ∧
    (PsycopgTransaction.aenter w).engine.running_transaction = some w.txId := by
  cases hp : w.engine._connection_pool <;>
    simp [PsycopgTransaction.aenter, PsycopgTransaction.retrieve_connection,
      PsycopgEngine.connection_pool, PsycopgEngine.create_connection_pool,
      Pool.getconn, _retrieve_cursor, hp]

/-- `__aenter__` only emits `poolOpen` and `getconn` events. -/
theorem aenter_countP (w : World) (p : DBOp → Bool)
    (hget : ∀ n, p (DBOp.getconn n) = false)
    (hpool : ∀ a b c, p (DBOp.poolOpen a b c) = false) :
    (PsycopgTransaction.aenter w).log.countP p = w.log.countP p := by
  cases hp : w.engine._connection_pool <;>
    simp [PsycopgTransaction.aenter, PsycopgTransaction.retrieve_connection,
      PsycopgEngine.connection_pool, PsycopgEngine.create_connection_pool,
      Pool.getconn, _retrieve_cursor, hp, List.countP_append, List.countP_cons,
      hget, hpool]

/-- Full effect of `__aexit__` on an entered transaction (held connection,
saved token): it returns cleanly, restores the pre-entry registration,
returns the held connection to the pool exactly once, and issues exactly the
rollback/commit the source's two conditions dictate, setting the matching
flag. -/
theorem aexit_spec (w : World) (exc : Bool) (c : Nat) (prev : Option Nat)
    (hc : w.tx.connection = some c) (hctx : w.tx.context = some prev) :
    (PsycopgTransaction.aexit exc w).1 = Except.ok () ∧
    (PsycopgTransaction.aexit exc w).2.engine.running_transaction = prev ∧
    (PsycopgTransaction.aexit exc w).2.tx.connection = some c ∧
    (PsycopgTransaction.aexit exc w).2.log.countP DBOp.isPutconn =
      w.log.countP DBOp.isPutconn + 1 ∧
    (PsycopgTransaction.aexit exc w).2.log.count (DBOp.putconn (some c)) =
      w.log.count (DBOp.putconn (some c)) + 1 ∧
    (PsycopgTransaction.aexit exc w).2.log.countP DBOp.isConnRollback =
      w.log.countP DBOp.isConnRollback +
        (if exc && !w.tx.is_rollback_executed then 1 else 0) ∧
    (PsycopgTransaction.aexit exc w).2.log.countP DBOp.isConnCommit =
      w.log.countP DBOp.isConnCommit +
        (if !exc && !w.tx.is_commit_executed && !w.tx.is_rollback_executed
         then 1 else 0) ∧
    (PsycopgTransaction.aexit exc w).2.tx.is_rollback_executed =
      (w.tx.is_rollback_executed || (exc && !w.tx.is_rollback_executed)) ∧
    (PsycopgTransaction.aexit exc w).2.tx.is_commit_executed =
      (w.tx.is_commit_executed ||
        (!exc && !w.tx.is_commit_executed && !w.tx.is_rollback_executed)) := by
  cases exc <;> cases hrb : w.tx.is_rollback_executed <;>
    cases hcm : w.tx.is_commit_executed <;> cases hp : w.engine._connection_pool <;>
    simp [PsycopgTransaction.aexit, PsycopgTransaction.rollback,
      PsycopgTransaction.commit, AsyncConnection.rollback, AsyncConnection.commit,
      PsycopgEngine.connection_pool, PsycopgEngine.create_connection_pool,
      Pool.putconn, hc, hctx, hrb, hcm, hp, List.countP_append, List.countP_cons,
      List.count_append, List.count_cons, DBOp.isPutconn, DBOp.isConnRollback,
      DBOp.isConnCommit]

/-- The world after a transaction scope is the world after some `__aexit__`
call (exception flag true exactly when the body raised) on the world the body
left behind. -/
theorem transactionScope_snd (env : Env) (body : List BodyOp) (w : World) :
    ∃ exc, (transactionScope env body w).2 =
      (PsycopgTransaction.aexit exc
        (runBody env body
          (PsycopgTransaction.aenter (PsycopgEngine.transaction w))).2).2 := by
  rcases hx : runBody env body (PsycopgTransaction.aenter (PsycopgEngine.transaction w))
    with ⟨r, w2⟩
  cases r with
  | ok v =>
    refine ⟨false, ?_⟩
    simp only [transactionScope, hx]
  | error e =>
    refine ⟨true, ?_⟩
    rcases ha : PsycopgTransaction.aexit true w2 with ⟨r3, w3⟩
    cases r3 <;> simp only [transactionScope, hx, ha]

/-- The world a scope body leaves behind still holds the connection acquired
at entry, still carries the token saving the pre-entry registration, and has
returned nothing to the pool. -/
theorem scope_body_world_facts (env : Env) (body : List BodyOp) (w : World) :
    (runBody env body (PsycopgTransaction.aenter (PsycopgEngine.transaction w))).2.tx.connection
        = some w.nextConnId ∧
    (runBody env body (PsycopgTransaction.aenter (PsycopgEngine.transaction w))).2.tx.context
        = some w.engine.running_transaction ∧
    (runBody env body (PsycopgTransaction.aenter (PsycopgEngine.transaction w))).2.log.countP
        DBOp.isPutconn = w.log.countP DBOp.isPutconn ∧
    (runBody env body (PsycopgTransaction.aenter (PsycopgEngine.transaction w))).2.log.count
        (DBOp.putconn (some w.nextConnId))
      = w.log.count (DBOp.putconn (some w.nextConnId)) := by
  have hen := aenter_fields (PsycopgEngine.transaction w)
  simp only [PsycopgEngine.transaction] at hen
  have hconn1 : (PsycopgTransaction.aenter { w with tx := {} }).tx.connection.isSome = true := by
    rw [hen.1]; rfl
  have hrf := runBody_fields env body (PsycopgTransaction.aenter { w with tx := {} }) hconn1
  have hc1 := runBody_countP env body DBOp.isPutconn
    (fun n => rfl) (fun a b c => rfl) (fun n s => rfl) (fun n s => rfl)
    (fun n => rfl) (fun n => rfl)
    (PsycopgTransaction.aenter { w with tx := {} })
  have hc2 := runBody_countP env body (fun b => b == DBOp.putconn (some w.nextConnId))
    (fun n => rfl) (fun a b c => rfl) (fun n s => rfl) (fun n s => rfl)
    (fun n => rfl) (fun n => rfl)
    (PsycopgTransaction.aenter { w with tx := {} })
  have ha1 := aenter_countP { w with tx := {} } DBOp.isPutconn
    (fun n => rfl) (fun a b c => rfl)
  have ha2 := aenter_countP { w with tx := {} }
    (fun b => b == DBOp.putconn (some w.nextConnId))
    (fun n => rfl) (fun a b c => rfl)
  simp only [PsycopgEngine.transaction]
  refine ⟨hrf.2.2.trans (by simpa using hen.1),
    hrf.2.1.trans (by simpa using hen.2.2.1), ?_, ?_⟩
  · exact hc1.trans ha1
  · exact hc2.trans ha2

/-- The world a scope body free of explicit `commit`/`rollback` calls leaves
behind has both flags still clear and has issued no commit or rollback on the
connection beyond those already in the initial log. -/
theorem scope_body_flag_facts (env : Env) (body : List BodyOp) (w : World)
    (hbody : ∀ op ∈ body, op ≠ BodyOp.commitOp ∧ op ≠ BodyOp.rollbackOp) :
    (runBody env body (PsycopgTransaction.aenter (PsycopgEngine.transaction w))).2.tx.is_commit_executed
        = false ∧
    (runBody env body (PsycopgTransaction.aenter (PsycopgEngine.transaction w))).2.tx.is_rollback_executed
        = false ∧
    (runBody env body (PsycopgTransaction.aenter (PsycopgEngine.transaction w))).2.log.countP
        DBOp.isConnCommit = w.log.countP DBOp.isConnCommit ∧
    (runBody env body (PsycopgTransaction.aenter (PsycopgEngine.transaction w))).2.log.countP
        DBOp.isConnRollback = w.log.countP DBOp.isConnRollback := by
  have hen := aenter_fields (PsycopgEngine.transaction w)
  simp only [PsycopgEngine.transaction] at hen
  have hfl := runBody_flags env body hbody (PsycopgTransaction.aenter { w with tx := {} })
  have hacc := aenter_countP { w with tx := {} } DBOp.isConnCommit
    (fun n => rfl) (fun a b c => rfl)
  have hacr := aenter_countP { w with tx := {} } DBOp.isConnRollback
    (fun n => rfl) (fun a b c => rfl)
  simp only [PsycopgEngine.transaction]
  exact ⟨hfl.1.trans (hen.2.2.2.1.trans rfl), hfl.2.1.trans (hen.2.2.2.2.1.trans rfl),
    hfl.2.2.1.trans hacc, hfl.2.2.2.trans hacr⟩

/-! ## Claim theorems -/

/-- C1, counterexample: the claim says the pooled connection is returned to
the pool on every outcome, including a raising query, with the error
propagating only after the return.  On a fresh engine with no running
transaction, executing the failing query "BOOM" with `in_pool = true`
propagates the query error while the borrowed connection is never returned:
the log holds no `putconn` at all. -/
theorem pool_execute_error_keeps_connection :
    (PsycopgEngine.execute envBoom "BOOM" true true w0).1 =
      Except.error (PyErr.queryError "BOOM") ∧
    (PsycopgEngine.execute envBoom "BOOM" true true w0).2.log.countP DBOp.isPutconn = 0 :=
  ⟨rfl, rfl⟩

/-- C1, amended: for every call to `Engine.execute` with no active
transaction registered and `in_pool = true` whose query executes without
raising, the call succeeds, exactly one connection is borrowed from the pool,
and that same connection is returned to the pool exactly once; when the query
raises, the error propagates without the connection being returned (see the
counterexample). -/
theorem pool_execute_success_returns_connection (env : Env) (q : String) (f : Bool)
    (w : World) (hrun : w.engine.running_transaction = none)
    (hok : env.queryFails q = false) :
    (∃ r, (PsycopgEngine.execute env q true f w).1 = Except.ok r) ∧
    (PsycopgEngine.execute env q true f w).2.log.countP DBOp.isPutconn =
      w.log.countP DBOp.isPutconn + 1 ∧
    (PsycopgEngine.execute env q true f w).2.log.count (DBOp.putconn (some w.nextConnId)) =
      w.log.count (DBOp.putconn (some w.nextConnId)) + 1 ∧
    (PsycopgEngine.execute env q true f w).2.log.countP DBOp.isGetconn =
      w.log.countP DBOp.isGetconn + 1 := by
  cases hp : w.engine._connection_pool <;> cases f <;>
    simp [PsycopgEngine.execute, hrun, hok, hp, PsycopgEngine.connection_pool,
      PsycopgEngine.create_connection_pool, Pool.getconn, Pool.putconn,
      AsyncCursor.execute, AsyncCursor.fetchall, AsyncConnection.commit,
      _retrieve_cursor, List.countP_append, List.countP_cons, List.count_append,
      List.count_cons, DBOp.isPutconn, DBOp.isGetconn]

/-- C1, witness for the amended theorem at a concrete successful call. -/
theorem pool_execute_success_returns_connection_witness :
    w0.engine.running_transaction = none ∧ env0.queryFails "SELECT 1" = false ∧
    ((∃ r, (PsycopgEngine.execute env0 "SELECT 1" true true w0).1 = Except.ok r) ∧
     (PsycopgEngine.execute env0 "SELECT 1" true true w0).2.log.countP DBOp.isPutconn =
       w0.log.countP DBOp.isPutconn + 1 ∧
     (PsycopgEngine.execute env0 "SELECT 1" true true w0).2.log.count
         (DBOp.putconn (some w0.nextConnId)) =
       w0.log.count (DBOp.putconn (some w0.nextConnId)) + 1 ∧
     (PsycopgEngine.execute env0 "SELECT 1" true true w0).2.log.countP DBOp.isGetconn =
       w0.log.countP DBOp.isGetconn + 1) :=
  ⟨rfl, rfl, pool_execute_success_returns_connection env0 "SELECT 1" true w0 rfl rfl⟩

/-- C2, counterexample: the claim says that after a first `commit()` every
subsequent `commit()`/`rollback()` is an idempotent no-op that invokes
nothing on the connection.  On an entered transaction that has already
committed, `rollback()` still invokes `connection.rollback()` (the rollback
count rises from 0 to 1) and still sets its flag. -/
theorem rollback_after_commit_invokes_connection :
    ((PsycopgTransaction.commit wEntered).2.log.countP DBOp.isConnRollback) = 0 ∧
    ((PsycopgTransaction.rollback (PsycopgTransaction.commit wEntered).2).2.log.countP
        DBOp.isConnRollback) = 1 ∧
    (PsycopgTransaction.rollback
        (PsycopgTransaction.commit wEntered).2).2.tx.is_rollback_executed = true :=
  ⟨rfl, rfl, rfl⟩

/-- C2, amended: every call to `commit()` / `rollback()` on a transaction
holding a connection — first or subsequent, whatever the flags already say —
invokes the corresponding underlying connection operation exactly once more
and sets the corresponding flag; there is no idempotence guard. -/
theorem commit_rollback_always_invoke (w : World) (c : Nat)
    (hc : w.tx.connection = some c) :
    (PsycopgTransaction.rollback w).2.log.countP DBOp.isConnRollback =
      w.log.countP DBOp.isConnRollback + 1 ∧
    (PsycopgTransaction.rollback w).2.tx.is_rollback_executed = true ∧
    (PsycopgTransaction.rollback w).1 = Except.ok () ∧
    (PsycopgTransaction.commit w).2.log.countP DBOp.isConnCommit =
      w.log.countP DBOp.isConnCommit + 1 ∧
    (PsycopgTransaction.commit w).2.tx.is_commit_executed = true ∧
    (PsycopgTransaction.commit w).1 = Except.ok () := by
  rw [tx_commit_eq w c hc, tx_rollback_eq w c hc]
  simp [List.countP_append, List.countP_cons, DBOp.isConnRollback, DBOp.isConnCommit]

/-- C2, witness at a world where a commit already happened, so the claim's
"subsequent call" situation is the one exercised. -/
theorem commit_rollback_always_invoke_witness :
    (PsycopgTransaction.commit wEntered).2.tx.connection = some 1 ∧
    ((PsycopgTransaction.rollback (PsycopgTransaction.commit wEntered).2).2.log.countP
        DBOp.isConnRollback =
      (PsycopgTransaction.commit wEntered).2.log.countP DBOp.isConnRollback + 1 ∧
     (PsycopgTransaction.rollback
        (PsycopgTransaction.commit wEntered).2).2.tx.is_rollback_executed = true ∧
     (PsycopgTransaction.rollback (PsycopgTransaction.commit wEntered).2).1 =
        Except.ok () ∧
     (PsycopgTransaction.commit (PsycopgTransaction.commit wEntered).2).2.log.countP
        DBOp.isConnCommit =
      (PsycopgTransaction.commit wEntered).2.log.countP DBOp.isConnCommit + 1 ∧
     (PsycopgTransaction.commit
        (PsycopgTransaction.commit wEntered).2).2.tx.is_commit_executed = true ∧
     (PsycopgTransaction.commit (PsycopgTransaction.commit wEntered).2).1 =
        Except.ok ()) :=
  ⟨rfl, commit_rollback_always_invoke (PsycopgTransaction.commit wEntered).2 1 rfl⟩

/-- C3, counterexample: the claim says that over every operation sequence at
most one of the two flags ever becomes true.  The scope that calls `commit()`
and then `rollback()` inside its body ends with both flags true. -/
theorem scope_with_commit_then_rollback_sets_both_flags :
    (transactionScope env0 [BodyOp.commitOp, BodyOp.rollbackOp] w0).2.tx.is_commit_executed
        = true ∧
    (transactionScope env0 [BodyOp.commitOp, BodyOp.rollbackOp] w0).2.tx.is_rollback_executed
        = true :=
  ⟨rfl, rfl⟩

/-- C3, amended: over a single entered scope whose body issues no direct
`commit()`/`rollback()` call, at most one of the two flags becomes true, and
exactly one commit-or-rollback is issued on the connection by the scope exit;
direct calls set their flag unconditionally, so a body that commits and then
rolls back ends with both flags true (see the counterexample). -/
theorem scope_flags_mutually_exclusive (env : Env) (body : List BodyOp) (w : World)
    (hbody : ∀ op ∈ body, op ≠ BodyOp.commitOp ∧ op ≠ BodyOp.rollbackOp) :
    ¬((transactionScope env body w).2.tx.is_commit_executed = true ∧
      (transactionScope env body w).2.tx.is_rollback_executed = true) ∧
    (transactionScope env body w).2.log.countP DBOp.isConnCommit +
        (transactionScope env body w).2.log.countP DBOp.isConnRollback =
      (w.log.countP DBOp.isConnCommit + w.log.countP DBOp.isConnRollback) + 1 := by
  obtain ⟨exc, hs⟩ := transactionScope_snd env body w
  obtain ⟨hbc, hbx, _, _⟩ := scope_body_world_facts env body w
  obtain ⟨hcm, hrb, hcc, hcr⟩ := scope_body_flag_facts env body w hbody
  obtain ⟨h1, h2, h3, h4, h5, h6, h7, h8, h9⟩ :=
    aexit_spec _ exc w.nextConnId w.engine.running_transaction hbc hbx
  rw [hs]
  simp only [hcm, hrb] at h6 h7 h8 h9
  constructor
  · rw [h8, h9]
    cases exc <;> simp
  · rw [h6, h7, hcc, hcr]
    cases exc <;> simp <;> omega

/-- C3, witness for the amended theorem at a concrete commit-free scope. -/
theorem scope_flags_mutually_exclusive_witness :
    (∀ op ∈ [BodyOp.executeOp "SELECT 1" true],
        op ≠ BodyOp.commitOp ∧ op ≠ BodyOp.rollbackOp) ∧
    (¬((transactionScope env0 [BodyOp.executeOp "SELECT 1" true] w0).2.tx.is_commit_executed
          = true ∧
       (transactionScope env0 [BodyOp.executeOp "SELECT 1" true] w0).2.tx.is_rollback_executed
          = true) ∧
     (transactionScope env0 [BodyOp.executeOp "SELECT 1" true] w0).2.log.countP
          DBOp.isConnCommit +
        (transactionScope env0 [BodyOp.executeOp "SELECT 1" true] w0).2.log.countP
          DBOp.isConnRollback =
      (w0.log.countP DBOp.isConnCommit + w0.log.countP DBOp.isConnRollback) + 1) :=
  ⟨by intro op hop; rw [List.mem_singleton] at hop; subst hop;
      exact ⟨by decide, by decide⟩,
   scope_flags_mutually_exclusive env0 [BodyOp.executeOp "SELECT 1" true] w0
     (by intro op hop; rw [List.mem_singleton] at hop; subst hop;
         exact ⟨by decide, by decide⟩)⟩

/-- C4: on every exit of an entered transaction scope, exactly one of the
claim's branches runs — a rollback exactly once when a failure propagates and
rollback has not already run; else a commit exactly once when neither commit
nor rollback has run; else neither — and the exit itself completes without
raising. -/
theorem aexit_branch_policy (w : World) (exception : Bool) (c : Nat) (prev : Option Nat)
    (hc : w.tx.connection = some c) (hctx : w.tx.context = some prev) :
    (PsycopgTransaction.aexit exception w).1 = Except.ok () ∧
    (PsycopgTransaction.aexit exception w).2.log.countP DBOp.isConnRollback =
      w.log.countP DBOp.isConnRollback +
        (if exception = true ∧ w.tx.is_rollback_executed = false then 1 else 0) ∧
    (PsycopgTransaction.aexit exception w).2.log.countP DBOp.isConnCommit =
      w.log.countP DBOp.isConnCommit +
        (if ¬(exception = true ∧ w.tx.is_rollback_executed = false) ∧
            w.tx.is_commit_executed = false ∧ w.tx.is_rollback_executed = false
         then 1 else 0) := by
  obtain ⟨h1, h2, h3, h4, h5, h6, h7, h8, h9⟩ := aexit_spec w exception c prev hc hctx
  refine ⟨h1, ?_, ?_⟩
  · rw [h6]; cases exception <;> cases hrb : w.tx.is_rollback_executed <;> simp [hrb]
  · rw [h7]; cases exception <;> cases hrb : w.tx.is_rollback_executed <;>
      cases hcm : w.tx.is_commit_executed <;> simp [hrb, hcm]

/-- C4, witness at a concrete entered transaction exiting with a propagating
failure. -/
theorem aexit_branch_policy_witness :
    wEntered.tx.connection = some 1 ∧ wEntered.tx.context = some none ∧
    ((PsycopgTransaction.aexit true wEntered).1 = Except.ok () ∧
     (PsycopgTransaction.aexit true wEntered).2.log.countP DBOp.isConnRollback =
       wEntered.log.countP DBOp.isConnRollback +
         (if (true : Bool) = true ∧ wEntered.tx.is_rollback_executed = false
          then 1 else 0) ∧
     (PsycopgTransaction.aexit true wEntered).2.log.countP DBOp.isConnCommit =
       wEntered.log.countP DBOp.isConnCommit +
         (if ¬((true : Bool) = true ∧ wEntered.tx.is_rollback_executed = false) ∧
             wEntered.tx.is_commit_executed = false ∧
             wEntered.tx.is_rollback_executed = false
          then 1 else 0)) :=
  ⟨rfl, rfl, aexit_branch_policy wEntered true 1 none rfl rfl⟩

/-- C5: for every environment, body and initial world, after the transaction
scope exits (normally or through a propagating body failure, with or without
explicit commit/rollback in the body) the context registration holds exactly
the value it held before entry — whatever that value was, restored, not
merely cleared — and the connection acquired at entry has been returned to
the pool exactly once. -/
theorem scope_restores_registration_and_returns_connection (env : Env)
    (body : List BodyOp) (w : World) :
    (transactionScope env body w).2.engine.running_transaction =
      w.engine.running_transaction ∧
    (transactionScope env body w).2.log.countP DBOp.isPutconn =
      w.log.countP DBOp.isPutconn + 1 ∧
    (transactionScope env body w).2.log.count (DBOp.putconn (some w.nextConnId)) =
      w.log.count (DBOp.putconn (some w.nextConnId)) + 1 := by
  obtain ⟨exc, hs⟩ := transactionScope_snd env body w
  obtain ⟨hbc, hbx, hb1, hb2⟩ := scope_body_world_facts env body w
  obtain ⟨h1, h2, h3, h4, h5, h6, h7, h8, h9⟩ :=
    aexit_spec _ exc w.nextConnId w.engine.running_transaction hbc hbx
  rw [hs]
  exact ⟨h2, by rw [h4, hb1], by rw [h5, hb2]⟩

/-- C6: whenever a transaction is registered in the calling context,
`Engine.execute` delegates to the transaction's own `execute` (the held
cursor runs the query and its result is returned), the `in_pool` argument
has no effect on the call's outcome, and — the registered transaction holding
its connection — no pool connection is borrowed. -/
theorem execute_delegates_to_running_transaction (env : Env) (q : String)
    (in_pool f : Bool) (w : World)
    (hrun : w.engine.running_transaction.isSome = true) :
    PsycopgEngine.execute env q in_pool f w = PsycopgTransaction.execute env q f w ∧
    PsycopgEngine.execute env q in_pool f w =
      PsycopgEngine.execute env q (!in_pool) f w ∧
    (w.tx.connection.isSome = true →
      (PsycopgEngine.execute env q in_pool f w).2.log.countP DBOp.isGetconn =
        w.log.countP DBOp.isGetconn) := by
  obtain ⟨j, hj⟩ := Option.isSome_iff_exists.mp hrun
  have hdel : PsycopgEngine.execute env q in_pool f w =
      PsycopgTransaction.execute env q f w := by
    simp [PsycopgEngine.execute, hj]
  refine ⟨hdel, ?_, ?_⟩
  · rw [hdel]; simp [PsycopgEngine.execute, hj]
  · intro hconn
    rw [hdel]
    exact tx_execute_connected_countP env q f w DBOp.isGetconn hconn
      (fun n s => rfl) (fun n s => rfl)

/-- C6, witness at a concrete entered (hence registered) transaction. -/
theorem execute_delegates_to_running_transaction_witness :
    wEntered.engine.running_transaction.isSome = true ∧
    (PsycopgEngine.execute env0 "SELECT 1" true true wEntered =
        PsycopgTransaction.execute env0 "SELECT 1" true wEntered ∧
     PsycopgEngine.execute env0 "SELECT 1" true true wEntered =
        PsycopgEngine.execute env0 "SELECT 1" (!true) true wEntered ∧
     (wEntered.tx.connection.isSome = true →
       (PsycopgEngine.execute env0 "SELECT 1" true true wEntered).2.log.countP
           DBOp.isGetconn =
         wEntered.log.countP DBOp.isGetconn)) :=
  ⟨rfl, execute_delegates_to_running_transaction env0 "SELECT 1" true true wEntered rfl⟩

/-- C7: every query executed through `Engine.execute` outside an active
transaction with `fetch_results = false` (and completing without a driver
error) returns none, never fetches rows, and the pooled connection used is
returned to the pool exactly once. -/
theorem execute_no_fetch_returns_none (env : Env) (q : String) (w : World)
    (hrun : w.engine.running_transaction = none) (hok : env.queryFails q = false) :
    (PsycopgEngine.execute env q true false w).1 = Except.ok none ∧
    (PsycopgEngine.execute env q true false w).2.log.countP DBOp.isFetchall =
      w.log.countP DBOp.isFetchall ∧
    (PsycopgEngine.execute env q true false w).2.log.countP DBOp.isPutconn =
      w.log.countP DBOp.isPutconn + 1 ∧
    (PsycopgEngine.execute env q true false w).2.log.count
        (DBOp.putconn (some w.nextConnId)) =
      w.log.count (DBOp.putconn (some w.nextConnId)) + 1 := by
  cases hp : w.engine._connection_pool <;>
    simp [PsycopgEngine.execute, hrun, hok, hp, PsycopgEngine.connection_pool,
      PsycopgEngine.create_connection_pool, Pool.getconn, Pool.putconn,
      AsyncCursor.execute, AsyncConnection.commit, _retrieve_cursor,
      List.countP_append, List.countP_cons, List.count_append, List.count_cons,
      DBOp.isPutconn, DBOp.isFetchall]

/-- C7, witness at a concrete no-fetch call. -/
theorem execute_no_fetch_returns_none_witness :
    w0.engine.running_transaction = none ∧ env0.queryFails "DELETE FROM buns" = false ∧
    ((PsycopgEngine.execute env0 "DELETE FROM buns" true false w0).1 = Except.ok none ∧
     (PsycopgEngine.execute env0 "DELETE FROM buns" true false w0).2.log.countP
         DBOp.isFetchall =
       w0.log.countP DBOp.isFetchall ∧
     (PsycopgEngine.execute env0 "DELETE FROM buns" true false w0).2.log.countP
         DBOp.isPutconn =
       w0.log.countP DBOp.isPutconn + 1 ∧
     (PsycopgEngine.execute env0 "DELETE FROM buns" true false w0).2.log.count
         (DBOp.putconn (some w0.nextConnId)) =
       w0.log.count (DBOp.putconn (some w0.nextConnId)) + 1) :=
  ⟨rfl, rfl, execute_no_fetch_returns_none env0 "DELETE FROM buns" w0 rfl rfl⟩

/-- C8: evaluation of the code at the failing input.  The claim says an
explicitly configured pool-open wait flag is the one actually used.  With the
wait flag explicitly configured to false, creating the pool opens it with
`wait = true`: the source's `self.open_connection_pool_wait or True` makes a
configured `False` fall through to the default, so the configured value is
ignored. -/
theorem create_pool_ignores_configured_wait_false :
    engineWaitFalse.open_connection_pool_wait = some false ∧
    (PsycopgEngine.create_connection_pool (mkWorld engineWaitFalse)).2.log =
      [DBOp.poolOpen 1 true 30] :=
  ⟨rfl, rfl⟩

/-- C9, counterexample: the claim says an existing pool is closed with the
configured close timeout.  With the close timeout explicitly configured to 0,
the pool is closed with timeout 30 instead: the source's
`self.close_connection_pool_timeout or 30` treats the configured 0 as
falsy. -/
theorem stop_pool_zero_timeout_uses_default :
    wCloseZero.engine.close_connection_pool_timeout = some 0 ∧
    wCloseZero.engine._connection_pool.isSome = true ∧
    (PsycopgEngine.stop_connection_pool wCloseZero).log =
      [DBOp.poolOpen 1 true 30, DBOp.poolClose 1 30] :=
  ⟨rfl, rfl, rfl⟩

/-- C9, amended: calling `stop_connection_pool` when no pool was ever created
emits exactly the non-fatal warning and returns normally with the engine
unchanged; when a pool exists it is closed with the configured close timeout
provided that timeout is set and nonzero, and with the default 30 when the
timeout is unset — or, the amendment, when it is set to zero. -/
theorem stop_connection_pool_policy (w : World) :
    (w.engine._connection_pool = none →
      PsycopgEngine.stop_connection_pool w =
        { w with
          log := w.log ++ [DBOp.warn "Try to close not existing connection pool."] }) ∧
    (∀ pool t, w.engine._connection_pool = some pool →
      w.engine.close_connection_pool_timeout = some t → ¬t = 0 →
      (PsycopgEngine.stop_connection_pool w).log =
        w.log ++ [DBOp.poolClose pool.poolId t]) ∧
    (∀ pool, w.engine._connection_pool = some pool →
      (w.engine.close_connection_pool_timeout = none ∨
        w.engine.close_connection_pool_timeout = some 0) →
      (PsycopgEngine.stop_connection_pool w).log =
        w.log ++ [DBOp.poolClose pool.poolId 30]) := by
  refine ⟨?_, ?_, ?_⟩
  · intro h; simp [PsycopgEngine.stop_connection_pool, h]
  · intro pool t h ht htz
    simp [PsycopgEngine.stop_connection_pool, h, ht, pyOrT, htz]
  · intro pool h ht
    rcases ht with ht | ht <;>
      simp [PsycopgEngine.stop_connection_pool, h, ht, pyOrT]

/-- C9, witness at the pool-less engine: warning emitted, normal return. -/
theorem stop_connection_pool_policy_witness :
    w0.engine._connection_pool = none ∧
    PsycopgEngine.stop_connection_pool w0 =
      { w0 with
        log := w0.log ++ [DBOp.warn "Try to close not existing connection pool."] } :=
  ⟨rfl, (stop_connection_pool_policy w0).1 rfl⟩

/-- C10: `stop_connection_pool` never clears the stored pool handle — it only
marks the pool closed — so afterwards the `connection_pool` property and
`create_connection_pool` both return that same, already-closed pool object
with the world unchanged, and no fresh pool is ever constructed (the
construction count is untouched). -/
theorem stop_keeps_pool_handle (w : World) (pool : Pool)
    (h : w.engine._connection_pool = some pool) :
    (PsycopgEngine.stop_connection_pool w).engine._connection_pool =
      some { pool with closed := true } ∧
    PsycopgEngine.connection_pool (PsycopgEngine.stop_connection_pool w) =
      ({ pool with closed := true }, PsycopgEngine.stop_connection_pool w) ∧
    PsycopgEngine.create_connection_pool (PsycopgEngine.stop_connection_pool w) =
      ({ pool with closed := true }, PsycopgEngine.stop_connection_pool w) ∧
    (PsycopgEngine.stop_connection_pool w).pools_created = w.pools_created := by
  refine ⟨?_, ?_, ?_, ?_⟩ <;>
    simp [PsycopgEngine.stop_connection_pool, PsycopgEngine.connection_pool,
      PsycopgEngine.create_connection_pool, h]

/-- C10, witness at a concrete engine whose pool exists. -/
theorem stop_keeps_pool_handle_witness :
    wPool.engine._connection_pool = some pool0 ∧
    ((PsycopgEngine.stop_connection_pool wPool).engine._connection_pool =
        some { pool0 with closed := true } ∧
     PsycopgEngine.connection_pool (PsycopgEngine.stop_connection_pool wPool) =
        ({ pool0 with closed := true }, PsycopgEngine.stop_connection_pool wPool) ∧
     PsycopgEngine.create_connection_pool (PsycopgEngine.stop_connection_pool wPool) =
        ({ pool0 with closed := true }, PsycopgEngine.stop_connection_pool wPool) ∧
     (PsycopgEngine.stop_connection_pool wPool).pools_created = wPool.pools_created) :=
  ⟨rfl, stop_keeps_pool_handle wPool pool0 rfl⟩

end QaspenPsycopg
